import Mathlib

/-!
Shallow embedding of the streaming-consumer controller implemented by the
`useComDOM` React hook (`src/lib/infrastructure/hooks/useComDOM.ts`).

The hook's mutable pieces of state (the data sink ref, the ComDOM worker
status, the error list and its id counter, the poll interval and the
consumer status) are gathered into `HookState`.  The asynchronous calls into
the ComDOM wrapper (the proxy to the background web worker) are modelled as
explicit outcome oracles: each operation takes the outcome of the underlying
wrapper call (a returned value or a thrown error) as an argument and returns
its result together with the updated state.  A rejected promise and a thrown
error surfacing to the caller are represented with `Except.error`.
-/

namespace ComDOM

/-- Status of the ComDOM web worker (the spec's FetcherStatus).  The enum is
declared in the worker-wrapper module; its values follow the spec's listing
`Unknown, Idle, Running, Done, Error`. -/
inductive ComDOMStatus
  | unknown
  | idle
  | running
  | done
  | error
  deriving DecidableEq

/-- Status of the `useComDOM` hook (the spec's ConsumerStatus). -/
inductive UseComDOMStatus
  | stopped
  | paused
  | running
  | done
  | error
  deriving DecidableEq

/-- An accumulated error record (`ComDOMError` in the source). -/
structure ComDOMError where
  id : Nat
  message : String
  cause : String
  deriving DecidableEq

/-- A batch returned by the wrapper's `next()` call: `next` is the
more-batches-follow flag and `data` the records of the batch. -/
structure BatchResponse (α : Type) where
  next : Bool
  data : List α
  deriving DecidableEq

/-- A poll interval: a finite number of milliseconds or `Infinity`. -/
inductive Interval
  | finite (ms : Nat)
  | infinite
  deriving DecidableEq

/-- A JavaScript error value thrown by an underlying call, reduced to the
fields the hook reads (`message` and `cause`). -/
structure ThrownError where
  message : String
  cause : String
  deriving DecidableEq

/-- The mutable state owned by one instance of the hook. -/
structure HookState (α : Type) where
  dataSink : List α
  comDOMStatus : ComDOMStatus
  errors : List ComDOMError
  errorId : Nat
  pollInterval : Interval
  status : UseComDOMStatus
  deriving DecidableEq

/-- The hook parameters fixed at construction. -/
structure HookConfig (α : Type) where
  initialData : List α
  restInterval : Interval
  fetchInterval : Interval
  deriving DecidableEq

/-- `resolveError(id)`: keep exactly the errors whose id differs from `i`. -/
def resolveError {α : Type} (i : Nat) (s : HookState α) : HookState α :=
  { s with errors := s.errors.filter (fun e => e.id != i) }

/-- `resolveAllErrors()`: clear the error list. -/
def resolveAllErrors {α : Type} (s : HookState α) : HookState α :=
  { s with errors := [] }

/-- `reportError(message, cause)`: bump the id counter and append one record. -/
def reportError {α : Type} (message cause : String) (s : HookState α) : HookState α :=
  { s with
      errorId := s.errorId + 1
      errors := s.errors ++ [{ id := s.errorId + 1, message := message, cause := cause }] }

/-- Outcome of an awaited `comDOMWrapper.getComDOMStatus()` call. -/
inductive StatusOutcome
  | throws (err : String)
  | returns (workerStatus : ComDOMStatus)
  deriving DecidableEq

/-- `comDOMStatusQueryFn`: on success store and return the worker status; on a
thrown error report it and fall through (the catch branch returns nothing). -/
def comDOMStatusQueryFn {α : Type} (outcome : StatusOutcome) (s : HookState α) :
    Except String (Option ComDOMStatus) × HookState α :=
  match outcome with
  | .returns workerStatus =>
      (.ok (some workerStatus), { s with comDOMStatus := workerStatus })
  | .throws err =>
      (.ok none, reportError err "Error fetching ComDOM status" s)

/-- Outcome of an awaited `comDOMWrapper.next()` call: a thrown error, a null
response, or a batch. -/
inductive NextOutcome (α : Type)
  | throws (err : String)
  | returns (resp : Option (BatchResponse α))
  deriving DecidableEq

/-- `queryFn`, the poll step registered with the query layer. -/
def queryFn {α : Type} (cfg : HookConfig α) (outcome : NextOutcome α) (s : HookState α) :
    Except String (List α) × HookState α :=
  if s.comDOMStatus ≠ ComDOMStatus.running ∧ s.comDOMStatus ≠ ComDOMStatus.done then
    (.error "ComDOM Web Worker has not been created or it is not running. The query will not fetch any data",
     s)
  else
    let s1 := { s with status := UseComDOMStatus.running }
    match outcome with
    | .throws err =>
        (.error err,
         { reportError err "Error fetching data from background thread" s1 with
             status := UseComDOMStatus.error })
    | .returns none =>
        (.error "ComDOM has finished fetching all data",
         { s1 with pollInterval := cfg.restInterval, status := UseComDOMStatus.done })
    | .returns (some batchResponse) =>
        if !batchResponse.next then
          (.error "ComDOM has finished fetching all data",
           { s1 with pollInterval := cfg.restInterval, status := UseComDOMStatus.done })
        else
          (.ok (s1.dataSink ++ batchResponse.data),
           { s1 with dataSink := s1.dataSink ++ batchResponse.data })

instance {ε β : Type} [DecidableEq ε] [DecidableEq β] : DecidableEq (Except ε β) := fun a b =>
  match a, b with
  | Except.error e1, Except.error e2 =>
      if h : e1 = e2 then isTrue (congrArg Except.error h)
      else isFalse (fun hc => h (Except.error.inj hc))
  | Except.error _, Except.ok _ => isFalse (fun hc => Except.noConfusion hc)
  | Except.ok _, Except.error _ => isFalse (fun hc => Except.noConfusion hc)
  | Except.ok v1, Except.ok v2 =>
      if h : v1 = v2 then isTrue (congrArg Except.ok h)
      else isFalse (fun hc => h (Except.ok.inj hc))

/-- Outcomes of the two awaited wrapper calls inside `start`. -/
structure StartOutcome where
  startResult : Except ThrownError Bool
  statusResult : Except ThrownError ComDOMStatus
  deriving DecidableEq

/-- `start(streamURL?)`: reset the sink, call `comDOMWrapper.start()`, set the
poll interval, query and store the worker status; every thrown error is caught,
reported, and turned into a `false` return.  The `streamURL` parameter is
accepted but never read by the body (the URL is fixed at construction). -/
def start {α : Type} (cfg : HookConfig α) (outcome : StartOutcome)
    (streamURL : Option String) (s : HookState α) : Bool × HookState α :=
  let s0 := { s with dataSink := cfg.initialData }
  match outcome.startResult with
  | .error e => (false, reportError e.message e.cause s0)
  | .ok ok =>
      if !ok then
        (false, reportError "Error starting ComDOM" "" s0)
      else
        let s1 := { s0 with pollInterval := cfg.fetchInterval }
        match outcome.statusResult with
        | .error e => (false, reportError e.message e.cause s1)
        | .ok workerStatus =>
            if workerStatus = ComDOMStatus.unknown then
              (false, reportError "Unknown ComDOM Web Worker status" "" s1)
            else
              (true, { s1 with comDOMStatus := workerStatus })

/-- Result of a `stop()` call: the returned value (or the propagated
exception), the final hook state, and whether the cached status query was
invalidated. -/
structure StopResult (α : Type) where
  result : Except ThrownError Bool
  state : HookState α
  invalidated : Bool
  deriving DecidableEq

/-- `stop()`: call `comDOMWrapper.destroy()` (outside any try block, so a
thrown error propagates), then branch on its boolean result and invalidate the
cached status query. -/
def stop {α : Type} (destroyOutcome : Except ThrownError Bool) (s : HookState α) :
    StopResult α :=
  match destroyOutcome with
  | .error e => { result := .error e, state := s, invalidated := false }
  | .ok success =>
      if success then
        { result := .ok true
          state := { s with status := UseComDOMStatus.stopped, pollInterval := Interval.infinite }
          invalidated := true }
      else
        { result := .ok false
          state := { reportError "Error stopping ComDOM" "Error Destroying ComDOM" s with
                       status := UseComDOMStatus.error }
          invalidated := true }

/-- `pause()`: suspend polling unconditionally, then refuse unless running. -/
def pause {α : Type} (s : HookState α) : Bool × HookState α :=
  let s1 := { s with pollInterval := Interval.infinite }
  if s1.status ≠ UseComDOMStatus.running then
    (false, s1)
  else
    (true, { s1 with status := UseComDOMStatus.paused })

/-- `resume()`: set status running and restore the fetch interval. -/
def resume {α : Type} (cfg : HookConfig α) (s : HookState α) : Bool × HookState α :=
  (true, { s with status := UseComDOMStatus.running, pollInterval := cfg.fetchInterval })

/-- `clean()`: write the initial data into the query cache and then reset the
sink; a thrown error from the cache write is caught before the sink is reset
and turns the call into a `false` return. -/
def clean {α : Type} (cfg : HookConfig α) (setQueriesDataOutcome : Except ThrownError Unit)
    (s : HookState α) : Bool × HookState α :=
  match setQueriesDataOutcome with
  | .error _ => (false, s)
  | .ok _ => (true, { s with dataSink := cfg.initialData })

/-- Well-formedness of the error bookkeeping: every stored id was issued by
the counter, and the stored ids are pairwise distinct. -/
def ErrorsWF {α : Type} (s : HookState α) : Prop :=
  (∀ e ∈ s.errors, e.id ≤ s.errorId) ∧ s.errors.Pairwise (fun a b => a.id ≠ b.id)

/-- A sample hook configuration over `Nat` records. -/
def sampleConfig : HookConfig Nat :=
  { initialData := [], restInterval := Interval.infinite, fetchInterval := Interval.finite 200 }

/-- The freshly constructed hook state (worker unknown, consumer stopped). -/
def sampleState : HookState Nat :=
  { dataSink := [], comDOMStatus := ComDOMStatus.unknown, errors := [], errorId := 0,
    pollInterval := Interval.infinite, status := UseComDOMStatus.stopped }

/-- A hook state mid-run: worker and consumer both running. -/
def runningState : HookState Nat :=
  { dataSink := [], comDOMStatus := ComDOMStatus.running, errors := [], errorId := 0,
    pollInterval := Interval.finite 200, status := UseComDOMStatus.running }

/-- A hook state with a non-initial sink, used to observe resets. -/
def dirtyState : HookState Nat :=
  { dataSink := [7], comDOMStatus := ComDOMStatus.running, errors := [], errorId := 0,
    pollInterval := Interval.finite 200, status := UseComDOMStatus.running }

/-- A hook state with two accumulated errors. -/
def errorState : HookState Nat :=
  { dataSink := [], comDOMStatus := ComDOMStatus.running,
    errors := [{ id := 1, message := "a", cause := "b" },
               { id := 2, message := "c", cause := "d" }],
    errorId := 2, pollInterval := Interval.infinite, status := UseComDOMStatus.running }

/-- The outcome of a fully successful pair of wrapper calls inside `start`. -/
def okStart : StartOutcome :=
  { startResult := Except.ok true, statusResult := Except.ok ComDOMStatus.running }

/-- Claim C1: when the worker status is Running or Done the poll step calls
`next()`; a null or terminal (`next = false`) batch sets the poll interval to
the rest interval and the consumer status to Done, while any batch with
`next = true` (even an empty one) has its records appended to the sink in
order and the call succeeds without marking the run Done. -/
theorem queryFn_batch_spec {α : Type} (cfg : HookConfig α) (s : HookState α)
    (resp : Option (BatchResponse α))
    (h : s.comDOMStatus = ComDOMStatus.running ∨ s.comDOMStatus = ComDOMStatus.done) :
    ((resp = none ∨ ∃ b, resp = some b ∧ b.next = false) →
       (queryFn cfg (NextOutcome.returns resp) s).2.pollInterval = cfg.restInterval ∧
       (queryFn cfg (NextOutcome.returns resp) s).2.status = UseComDOMStatus.done) ∧
    (∀ b, resp = some b → b.next = true →
       (queryFn cfg (NextOutcome.returns resp) s).1 = Except.ok (s.dataSink ++ b.data) ∧
       (queryFn cfg (NextOutcome.returns resp) s).2.dataSink = s.dataSink ++ b.data ∧
       (queryFn cfg (NextOutcome.returns resp) s).2.status ≠ UseComDOMStatus.done) := by
  have hguard : ¬(s.comDOMStatus ≠ ComDOMStatus.running ∧ s.comDOMStatus ≠ ComDOMStatus.done) := by
    rcases h with h | h <;> simp [h]
  constructor
  · rintro (rfl | ⟨b, rfl, hb⟩)
    · simp [queryFn, hguard]
    · simp [queryFn, hguard, hb]
  · rintro b rfl hb
    simp [queryFn, hguard, hb]

/-- Witness for C1: from the running state, a batch `{next := true, data := [5]}`
is appended to the sink. -/
theorem queryFn_batch_spec_witness :
    (runningState.comDOMStatus = ComDOMStatus.running ∨
       runningState.comDOMStatus = ComDOMStatus.done) ∧
    (queryFn sampleConfig (NextOutcome.returns (some ⟨true, [5]⟩)) runningState).2.dataSink =
      runningState.dataSink ++ [5] := by
  refine ⟨Or.inl rfl, ?_⟩
  exact ((queryFn_batch_spec sampleConfig runningState (some ⟨true, [5]⟩)
    (Or.inl rfl)).2 ⟨true, [5]⟩ rfl rfl).2.1

/-- Claim C3: a poll step taken while the worker status is neither Running nor
Done rejects with a fixed message and leaves the whole hook state untouched. -/
theorem queryFn_not_running_spec {α : Type} (cfg : HookConfig α) (outcome : NextOutcome α)
    (s : HookState α) (h1 : s.comDOMStatus ≠ ComDOMStatus.running)
    (h2 : s.comDOMStatus ≠ ComDOMStatus.done) :
    (queryFn cfg outcome s).1 =
      Except.error "ComDOM Web Worker has not been created or it is not running. The query will not fetch any data" ∧
    (queryFn cfg outcome s).2 = s := by
  simp [queryFn, h1, h2]

/-- Witness for C3: polling the freshly constructed hook (worker Unknown)
rejects without changing the state. -/
theorem queryFn_not_running_spec_witness :
    sampleState.comDOMStatus ≠ ComDOMStatus.running ∧
    sampleState.comDOMStatus ≠ ComDOMStatus.done ∧
    (queryFn sampleConfig (NextOutcome.returns none) sampleState).2 = sampleState :=
  ⟨by decide, by decide,
   (queryFn_not_running_spec sampleConfig (NextOutcome.returns none) sampleState
      (by decide) (by decide)).2⟩

/-- Claim C4: `stop` with a successfully destroying wrapper returns true, sets
status Stopped and an infinite poll interval, and leaves the error list alone;
with a failing destroy it returns false, appends one error record and sets
status Error; in both cases the cached status query is invalidated. -/
theorem stop_spec {α : Type} (s : HookState α) :
    (stop (Except.ok true) s).result = Except.ok true ∧
    (stop (Except.ok true) s).state.status = UseComDOMStatus.stopped ∧
    (stop (Except.ok true) s).state.pollInterval = Interval.infinite ∧
    (stop (Except.ok true) s).state.errors = s.errors ∧
    (stop (Except.ok true) s).state.dataSink = s.dataSink ∧
    (stop (Except.ok true) s).invalidated = true ∧
    (stop (Except.ok false) s).result = Except.ok false ∧
    (stop (Except.ok false) s).state.status = UseComDOMStatus.error ∧
    (stop (Except.ok false) s).state.errors =
      s.errors ++ [{ id := s.errorId + 1, message := "Error stopping ComDOM",
                     cause := "Error Destroying ComDOM" }] ∧
    (stop (Except.ok false) s).invalidated = true := by
  simp [stop, reportError]

/-- Claim C5: `pause` always sets the poll interval to infinite; it succeeds
and marks the hook Paused exactly when the consumer status is Running, and
otherwise returns false, changing neither status nor errors nor sink. -/
theorem pause_spec {α : Type} (s : HookState α) :
    (pause s).2.pollInterval = Interval.infinite ∧
    (s.status = UseComDOMStatus.running →
       (pause s).1 = true ∧ (pause s).2.status = UseComDOMStatus.paused) ∧
    (s.status ≠ UseComDOMStatus.running →
       (pause s).1 = false ∧ (pause s).2.status = s.status ∧
       (pause s).2.errors = s.errors ∧ (pause s).2.dataSink = s.dataSink ∧
       (pause s).2.comDOMStatus = s.comDOMStatus) := by
  by_cases h : s.status = UseComDOMStatus.running <;> simp [pause, h]

/-- Witness for C5: pausing the stopped hook fails and leaves the status
Stopped. -/
theorem pause_spec_witness :
    sampleState.status ≠ UseComDOMStatus.running ∧
    (pause sampleState).1 = false ∧ (pause sampleState).2.status = sampleState.status := by
  refine ⟨by decide, ?_, ?_⟩
  · exact ((pause_spec sampleState).2.2 (by decide)).1
  · exact ((pause_spec sampleState).2.2 (by decide)).2.1

/-- Claim C10: the `streamURL` argument of `start` has no effect: two calls
from the same state with the same underlying outcomes but different
`streamURL` arguments produce identical results. -/
theorem start_ignores_streamURL {α : Type} (cfg : HookConfig α) (outcome : StartOutcome)
    (u1 u2 : Option String) (s : HookState α) :
    start cfg outcome u1 s = start cfg outcome u2 s := rfl

/-- Counterexample to C2: a fully successful `start` from the stopped state
returns true but leaves the consumer status Stopped, not Running. -/
theorem start_leaves_status_counterexample :
    (start sampleConfig okStart none sampleState).1 = true ∧
    (start sampleConfig okStart none sampleState).2.status = UseComDOMStatus.stopped ∧
    (start sampleConfig okStart none sampleState).2.status ≠ UseComDOMStatus.running := by
  decide

/-- Claim C2 (amended): `start` always resets the sink to the initial data and
never touches the consumer status; on success it sets the poll interval to the
fetch interval, stores the queried worker status and returns true with the
error list unchanged (the consumer status becomes Running only at the next
poll step); on failure it returns false, leaves the worker status unchanged
and appends exactly one error record. -/
theorem start_spec {α : Type} (cfg : HookConfig α) (outcome : StartOutcome)
    (u : Option String) (s : HookState α) :
    (start cfg outcome u s).2.dataSink = cfg.initialData ∧
    (start cfg outcome u s).2.status = s.status ∧
    (∀ ws, outcome.startResult = Except.ok true → outcome.statusResult = Except.ok ws →
       ws ≠ ComDOMStatus.unknown →
       (start cfg outcome u s).1 = true ∧
       (start cfg outcome u s).2.pollInterval = cfg.fetchInterval ∧
       (start cfg outcome u s).2.comDOMStatus = ws ∧
       (start cfg outcome u s).2.errors = s.errors) ∧
    ((start cfg outcome u s).1 = false →
       (start cfg outcome u s).2.comDOMStatus = s.comDOMStatus ∧
       ∃ e, (start cfg outcome u s).2.errors = s.errors ++ [e]) := by
  obtain ⟨sr, str⟩ := outcome
  cases sr with
  | error e => simp [start, reportError]
  | ok b =>
    cases b with
    | false => simp [start, reportError]
    | true =>
      cases str with
      | error e => simp [start, reportError]
      | ok ws =>
        by_cases hws : ws = ComDOMStatus.unknown
        · simp [start, reportError, hws]
        · simp [start, reportError, hws]

/-- Witness for C2 (amended): a fully successful `start` from the stopped
state returns true and installs the fetch interval. -/
theorem start_spec_witness :
    okStart.startResult = Except.ok true ∧
    okStart.statusResult = Except.ok ComDOMStatus.running ∧
    ComDOMStatus.running ≠ ComDOMStatus.unknown ∧
    (start sampleConfig okStart none sampleState).1 = true ∧
    (start sampleConfig okStart none sampleState).2.pollInterval = sampleConfig.fetchInterval := by
  refine ⟨rfl, rfl, by decide, ?_, ?_⟩
  · exact ((start_spec sampleConfig okStart none sampleState).2.2.1 ComDOMStatus.running
      rfl rfl (by decide)).1
  · exact ((start_spec sampleConfig okStart none sampleState).2.2.1 ComDOMStatus.running
      rfl rfl (by decide)).2.1

/-- Counterexample to C6: a throwing status fetch from the running state
appends an error record but leaves the consumer status Running, not Error. -/
theorem statusFetch_failure_counterexample :
    (comDOMStatusQueryFn (StatusOutcome.throws "boom") runningState).2.errors.length = 1 ∧
    (comDOMStatusQueryFn (StatusOutcome.throws "boom") runningState).2.status =
      UseComDOMStatus.running ∧
    (comDOMStatusQueryFn (StatusOutcome.throws "boom") runningState).2.status ≠
      UseComDOMStatus.error := by
  decide

/-- Claim C6 (amended): a failing status fetch appends exactly one error
record and resolves successfully with no status value; it leaves the consumer
status, the sink and the poll interval unchanged (only a failing poll step
moves the consumer status to Error). -/
theorem comDOMStatusQueryFn_failure_spec {α : Type} (err : String) (s : HookState α) :
    (comDOMStatusQueryFn (StatusOutcome.throws err) s).2.errors =
      s.errors ++ [{ id := s.errorId + 1, message := err,
                     cause := "Error fetching ComDOM status" }] ∧
    (comDOMStatusQueryFn (StatusOutcome.throws err) s).2.status = s.status ∧
    (comDOMStatusQueryFn (StatusOutcome.throws err) s).2.dataSink = s.dataSink ∧
    (comDOMStatusQueryFn (StatusOutcome.throws err) s).2.pollInterval = s.pollInterval ∧
    (comDOMStatusQueryFn (StatusOutcome.throws err) s).1 = Except.ok none := by
  simp [comDOMStatusQueryFn, reportError]

/-- Counterexample to C8: `stop` propagates an exception thrown by the
wrapper's `destroy` instead of returning a boolean. -/
theorem stop_raises_counterexample :
    (stop (Except.error { message := "boom", cause := "bust" }) sampleState).result =
      Except.error { message := "boom", cause := "bust" } ∧
    (stop (Except.error { message := "boom", cause := "bust" }) sampleState).result ≠
      Except.ok true ∧
    (stop (Except.error { message := "boom", cause := "bust" }) sampleState).result ≠
      Except.ok false := by
  decide

/-- Claim C8 (amended): every controller operation except `stop` returns a
value for every outcome of the underlying wrapper calls (`start` and `clean`
catch thrown errors and return false); `stop` returns the destroy result when
destroy returns normally but propagates an exception thrown by destroy. -/
theorem controller_raise_spec {α : Type} (cfg : HookConfig α) (outcome : StartOutcome)
    (u : Option String) (s : HookState α) (b : Bool) (e : ThrownError) :
    (stop (Except.ok b) s).result = Except.ok b ∧
    (stop (Except.error e) s).result = Except.error e ∧
    (start cfg { startResult := Except.error e, statusResult := outcome.statusResult } u s).1 =
      false ∧
    (clean cfg (Except.error e) s).1 = false := by
  refine ⟨?_, ?_, ?_, ?_⟩
  · cases b <;> simp [stop]
  · simp [stop]
  · simp [start]
  · simp [clean]

/-- Counterexample to C9: when the query-cache write throws, `clean` returns
false and the sink is not reset to the initial content. -/
theorem clean_no_reset_counterexample :
    (clean sampleConfig (Except.error { message := "boom", cause := "bust" }) dirtyState).1 =
      false ∧
    (clean sampleConfig (Except.error { message := "boom", cause := "bust" })
        dirtyState).2.dataSink = [7] ∧
    (clean sampleConfig (Except.error { message := "boom", cause := "bust" })
        dirtyState).2.dataSink ≠ sampleConfig.initialData := by
  decide

/-- Claim C9 (amended): when the query-cache write returns normally, `clean`
resets the sink to the initial content and changes nothing else, returning
true; when that write throws, `clean` returns false and changes nothing at
all.  `start` and `clean` remain the only sink-resetting operations: `pause`,
`resume`, `stop`, `resolveError`, `resolveAllErrors` and the status fetch
leave the sink unchanged, and the poll step can only append to it. -/
theorem clean_spec {α : Type} (cfg : HookConfig α) (s : HookState α) (e : ThrownError)
    (i : Nat) (b : Bool) (so : StatusOutcome) (no : NextOutcome α) :
    (clean cfg (Except.ok ()) s).1 = true ∧
    (clean cfg (Except.ok ()) s).2.dataSink = cfg.initialData ∧
    (clean cfg (Except.ok ()) s).2.status = s.status ∧
    (clean cfg (Except.ok ()) s).2.comDOMStatus = s.comDOMStatus ∧
    (clean cfg (Except.ok ()) s).2.pollInterval = s.pollInterval ∧
    (clean cfg (Except.ok ()) s).2.errors = s.errors ∧
    (clean cfg (Except.ok ()) s).2.errorId = s.errorId ∧
    clean cfg (Except.error e) s = (false, s) ∧
    (pause s).2.dataSink = s.dataSink ∧
    (resume cfg s).2.dataSink = s.dataSink ∧
    (stop (Except.ok b) s).state.dataSink = s.dataSink ∧
    (resolveError i s).dataSink = s.dataSink ∧
    (resolveAllErrors s).dataSink = s.dataSink ∧
    (comDOMStatusQueryFn so s).2.dataSink = s.dataSink ∧
    (∃ t, (queryFn cfg no s).2.dataSink = s.dataSink ++ t) := by
  refine ⟨by simp [clean], by simp [clean], by simp [clean], by simp [clean], by simp [clean],
    by simp [clean], by simp [clean], by simp [clean], ?_, by simp [resume], ?_,
    by simp [resolveError], by simp [resolveAllErrors], ?_, ?_⟩
  · by_cases h : s.status = UseComDOMStatus.running <;> simp [pause, h]
  · cases b <;> simp [stop, reportError]
  · cases so <;> simp [comDOMStatusQueryFn, reportError]
  · by_cases hg : s.comDOMStatus ≠ ComDOMStatus.running ∧ s.comDOMStatus ≠ ComDOMStatus.done
    · exact ⟨[], by simp [queryFn, hg]⟩
    · cases no with
      | throws err => exact ⟨[], by simp [queryFn, hg, reportError]⟩
      | returns resp =>
        cases resp with
        | none => exact ⟨[], by simp [queryFn, hg]⟩
        | some bb =>
          cases hbb : bb.next with
          | false => exact ⟨[], by simp [queryFn, hg, hbb]⟩
          | true => exact ⟨bb.data, by simp [queryFn, hg, hbb]⟩

/-- Filtering out one occurring id from a list with pairwise-distinct ids
removes exactly one element. -/
theorem filter_ne_length_of_pairwise {l : List ComDOMError} {i : Nat}
    (hp : l.Pairwise (fun a b => a.id ≠ b.id)) {x : ComDOMError} (hx : x ∈ l)
    (hxi : x.id = i) :
    (l.filter (fun e => e.id != i)).length + 1 = l.length := by
  induction l with
  | nil => cases hx
  | cons hd tl ih =>
    have hhd := (List.pairwise_cons.mp hp).1
    have htl := (List.pairwise_cons.mp hp).2
    rcases List.mem_cons.mp hx with rfl | hx'
    · have hfix : tl.filter (fun e => e.id != i) = tl := by
        rw [List.filter_eq_self]
        intro a ha
        have hne : x.id ≠ a.id := hhd a ha
        simp only [bne_iff_ne, ne_eq]
        omega
      simp [List.filter_cons, hxi, hfix]
    · have hki : hd.id ≠ i := by
        have hne : hd.id ≠ x.id := hhd x hx'
        omega
      have hcond : (hd.id != i) = true := by simpa using hki
      have hrec := ih htl hx'
      rw [List.filter_cons, if_pos hcond]
      simp only [List.length_cons]
      omega

/-- Claim C7: from any well-formed error state, `reportError` (the single path
by which every recoverable failure records itself) appends exactly one record
whose id is strictly greater than every previously issued id, preserving
distinctness; `resolveError i` removes exactly the entry carrying id `i` and
keeps every other entry; `resolveAllErrors` empties the list. -/
theorem error_accounting_spec {α : Type} (s : HookState α) (m c : String) (i : Nat)
    (hwf : ErrorsWF s) :
    (reportError m c s).errors =
      s.errors ++ [{ id := s.errorId + 1, message := m, cause := c }] ∧
    (∀ e ∈ s.errors, e.id < s.errorId + 1) ∧
    ErrorsWF (reportError m c s) ∧
    (∀ e ∈ (resolveError i s).errors, e.id ≠ i) ∧
    (∀ e ∈ s.errors, e.id ≠ i → e ∈ (resolveError i s).errors) ∧
    (∀ x ∈ s.errors, x.id = i →
       (resolveError i s).errors.length + 1 = s.errors.length) ∧
    ErrorsWF (resolveError i s) ∧
    (resolveAllErrors s).errors = [] := by
  obtain ⟨hbound, hpair⟩ := hwf
  have hlt : ∀ e ∈ s.errors, e.id < s.errorId + 1 := by
    intro e he
    exact Nat.lt_succ_of_le (hbound e he)
  refine ⟨rfl, hlt, ⟨?_, ?_⟩, ?_, ?_, ?_, ⟨?_, ?_⟩, rfl⟩
  · intro e he
    simp only [reportError, List.mem_append, List.mem_singleton] at he
    rcases he with he | rfl
    · exact Nat.le_succ_of_le (hbound e he)
    · exact Nat.le_refl _
  · show (s.errors ++ [_]).Pairwise _
    rw [List.pairwise_append]
    refine ⟨hpair, List.pairwise_singleton _ _, ?_⟩
    intro a ha b hb
    rcases List.mem_singleton.mp hb with rfl
    have := hbound a ha
    simp only [ne_eq]
    omega
  · intro e he
    have := List.of_mem_filter he
    simpa using this
  · intro e he hne
    exact List.mem_filter.mpr ⟨he, by simpa using hne⟩
  · intro x hx hxi
    exact filter_ne_length_of_pairwise hpair hx hxi
  · intro e he
    exact hbound e (List.mem_of_mem_filter he)
  · exact List.Pairwise.sublist (List.filter_sublist _) hpair

/-- Witness for C7: the two-error state is well formed and clearing it leaves
the empty list. -/
theorem error_accounting_spec_witness :
    ErrorsWF errorState ∧ (resolveAllErrors errorState).errors = [] := by
  have hwf : ErrorsWF errorState := by
    constructor
    · decide
    · decide
  exact ⟨hwf, (error_accounting_spec errorState "m" "c" 1 hwf).2.2.2.2.2.2.2⟩

end ComDOM
